import Mathlib

/-!
Shallow embedding of the gallery data/view/pagination logic of
`src/script.js` (hades-salem).  The DOM is modelled by a record of
Booleans saying which named elements exist; a JavaScript `TypeError`
raised by dereferencing a missing element is modelled by `Except.error`
carrying the application state at the moment of the throw, while a
normal return is `Except.ok`.  JS objects used as string-keyed maps
(`Fandom.products`) are modelled as association lists in key insertion
order, which is the order `Object.keys` iterates.
-/

/-- One product entry (`{ id, image, name }`) of `gallery-data.json`. -/
structure Product where
  id : String
  image : String
  name : String
deriving DecidableEq

/-- One product-type entry (`{ id, name, icon }`). -/
structure ProductType where
  id : String
  name : String
  icon : String
deriving DecidableEq

/-- A fandom: `products` maps a product-type id to its product list
(association list in `Object.keys` order). -/
structure Fandom where
  id : String
  name : String
  featured : Bool
  thumbnail : String
  products : List (String × List Product)
deriving DecidableEq

/-- The root catalog document (`fandoms`, `productTypes`). -/
structure Catalog where
  fandoms : List Fandom
  productTypes : List ProductType
deriving DecidableEq

/-- The global `state` object (script.js lines 24-29). -/
structure AppState where
  galleryData : Option Catalog
  currentFandom : Option Fandom
  currentProductType : String
  currentPage : Nat
deriving DecidableEq

/-- The global `CONFIG` object (script.js lines 9-14); the float field
`cursorSmoothing` belongs to the cosmetic cursor and is out of scope. -/
structure Config where
  itemsPerPage : Nat
  animationDelay : Nat
  scrollOffset : Nat
deriving DecidableEq

def CONFIG : Config :=
  { itemsPerPage := 6, animationDelay := 100, scrollOffset := 80 }

/-- The initial value of `state` (script.js lines 24-29). -/
def initialState : AppState :=
  { galleryData := none
  , currentFandom := none
  , currentProductType := "llaveros"
  , currentPage := 1 }

/-- Which named DOM elements `document.getElementById` finds.  `true`
means the element exists. -/
structure Dom where
  fandomFilters : Bool
  featuredGrid : Bool
  featuredView : Bool
  fandomView : Bool
  selectedFandomName : Bool
  galeria : Bool
  productTypeFilters : Bool
  productGrid : Bool
  prevPage : Bool
  nextPage : Bool
deriving DecidableEq

/-- A page with every named element present. -/
def fullDom : Dom :=
  { fandomFilters := true, featuredGrid := true, featuredView := true
  , fandomView := true, selectedFandomName := true, galeria := true
  , productTypeFilters := true, productGrid := true
  , prevPage := true, nextPage := true }

/-- The state of the application after an operation, whether it
returned normally (`ok`) or threw (`error`). -/
def stateAfter (r : Except AppState AppState) : AppState :=
  match r with
  | .ok s => s
  | .error s => s

/-- Model of `currentFandom.products[currentProductType] || []` (script.js
line 352): association-list lookup defaulting to the empty list. -/
def lookupProducts (m : List (String × List Product)) (key : String) : List Product :=
  match m.find? (fun p => p.1 == key) with
  | some p => p.2
  | none => []

/-- Model of `Math.ceil(products.length / CONFIG.itemsPerPage)` (script.js
line 353), as exact natural arithmetic. -/
def totalPagesOf (n : Nat) : Nat :=
  (n + CONFIG.itemsPerPage - 1) / CONFIG.itemsPerPage

/-- The disabled flags written onto the two pagination buttons. -/
structure PaginationControls where
  prevDisabled : Bool
  nextDisabled : Bool
deriving DecidableEq

/-- Model of `updatePaginationControls(totalItems, totalPages)` (script.js lines
412-437).  The source reads `prevBtn`/`nextBtn` with no null check and
immediately assigns `.disabled`, so a missing button throws a
`TypeError`; `totalItems` is accepted but unused, as in the source. -/
def updatePaginationControls (dom : Dom) (st : AppState)
    (totalItems : Nat) (totalPages : Nat) : Except AppState PaginationControls :=
  if !dom.prevPage || !dom.nextPage then .error st
  else .ok
    { prevDisabled := st.currentPage == 1
    , nextDisabled := (st.currentPage == totalPages) || (totalPages == 0) }

/-- The `prevBtn.onclick` closure (script.js lines 421-427): decrement
`currentPage` only when it is above 1.  The subsequent `renderProducts()`
and `scrollToProductGrid()` calls read but never write the state. -/
def prevClickHandler (st : AppState) : AppState :=
  if st.currentPage > 1 then { st with currentPage := st.currentPage - 1 } else st

/-- The `nextBtn.onclick` closure (script.js lines 430-436): increment
`currentPage` only when it is below the captured `totalPages`. -/
def nextClickHandler (totalPages : Nat) (st : AppState) : AppState :=
  if st.currentPage < totalPages then { st with currentPage := st.currentPage + 1 } else st

/-- Model of `renderProducts()` (script.js lines 348-400).  Returns the page of
products whose tiles were written into the grid.  Null `currentFandom`
and a missing `productGrid` are guarded early returns; a missing
pagination button makes the inner `updatePaginationControls` call throw.
`slice(startIndex, endIndex)` is `drop startIndex` then
`take (endIndex - startIndex)`. -/
def renderProducts (dom : Dom) (st : AppState) :
    Except AppState (AppState × List Product) :=
  match st.currentFandom with
  | none => .ok (st, [])
  | some fandom =>
    let products := lookupProducts fandom.products st.currentProductType
    let totalPages := totalPagesOf products.length
    let startIndex := (st.currentPage - 1) * CONFIG.itemsPerPage
    let endIndex := startIndex + CONFIG.itemsPerPage
    let currentProducts := (products.drop startIndex).take (endIndex - startIndex)
    if !dom.productGrid then .ok (st, [])
    else
      match updatePaginationControls dom st products.length totalPages with
      | .error s => .error s
      | .ok _ => .ok (st, currentProducts)

/-- One rendered product-type filter button (script.js lines 310-316). -/
structure TypeFilterControl where
  typeId : String
  typeName : String
  icon : String
  count : Nat
  active : Bool
deriving DecidableEq

/-- The `Object.keys(fandom.products).forEach((productTypeId, index) =>`
loop of `renderProductTypeFilters` (script.js lines 300-317): `i` is the
index in the unfiltered key list; a key with no matching entry in
`productTypes` is skipped; the control is active iff `i == 0`. -/
def buildTypeControls (data : Catalog) : Nat → List (String × List Product) → List TypeFilterControl
  | _, [] => []
  | i, (key, prods) :: rest =>
    match data.productTypes.find? (fun pt => pt.id == key) with
    | none => buildTypeControls data (i + 1) rest
    | some pt =>
      { typeId := pt.id, typeName := pt.name, icon := pt.icon
      , count := prods.length, active := i == 0 } :: buildTypeControls data (i + 1) rest

/-- Model of `renderProductTypeFilters(fandom)` (script.js lines 293-338): early
return with nothing rendered when the `productTypeFilters` container is
missing.  `data` is `state.galleryData`, non-null at every call site. -/
def renderProductTypeFilters (dom : Dom) (data : Catalog) (fandom : Fandom) :
    List TypeFilterControl :=
  if !dom.productTypeFilters then [] else buildTypeControls data 0 fandom.products

/-- The click handler bound to each product-type button (script.js lines
324-334): set `currentProductType`, reset `currentPage` to 1, then
re-render. -/
def productTypeClick (dom : Dom) (st : AppState) (typeId : String) :
    Except AppState AppState :=
  let st1 : AppState :=
    { st with currentProductType := typeId, currentPage := 1 }
  match renderProducts dom st1 with
  | .error s => .error s
  | .ok (st2, _) => .ok st2

/-- Model of `Object.keys(fandom.products)[0] || "llaveros"` (script.js line
275): the first key, with the JS falsy empty string and a missing first
key both replaced by `"llaveros"`. -/
def firstProductTypeKey (fandom : Fandom) : String :=
  match fandom.products.head? with
  | some p => if p.1 = "" then "llaveros" else p.1
  | none => "llaveros"

/-- Model of `showFeaturedView()` (script.js lines 242-246): dereferences
`featuredView` then `fandomView` with no null check (a missing one
throws before `currentFandom` is cleared), then sets
`currentFandom = null`.  It does not touch `currentPage`. -/
def showFeaturedView (dom : Dom) (st : AppState) : Except AppState AppState :=
  if !dom.featuredView then .error st
  else if !dom.fandomView then .error st
  else .ok { st with currentFandom := none }

/-- Model of `showFandomDetail(fandomId)` (script.js lines 257-282).  A null
`galleryData` throws at the `state.galleryData.fandoms` read; an unknown
id is an early-return no-op; otherwise `currentFandom`/`currentPage` are
mutated first, then the unguarded `featuredView`, `fandomView`,
`selectedFandomName` dereferences run, the type filters render, the
first product-type key is selected, `renderProducts()` runs, and finally
the unguarded `galeria` dereference scrolls. -/
def showFandomDetail (dom : Dom) (st : AppState) (fandomId : String) :
    Except AppState AppState :=
  match st.galleryData with
  | none => .error st
  | some data =>
    match data.fandoms.find? (fun f => f.id == fandomId) with
    | none => .ok st
    | some fandom =>
      let st1 : AppState := { st with currentFandom := some fandom, currentPage := 1 }
      if !dom.featuredView then .error st1
      else if !dom.fandomView then .error st1
      else if !dom.selectedFandomName then .error st1
      else
        let _filters := renderProductTypeFilters dom data fandom
        let st2 : AppState := { st1 with currentProductType := firstProductTypeKey fandom }
        match renderProducts dom st2 with
        | .error s => .error s
        | .ok (st3, _) =>
          if !dom.galeria then .error st3 else .ok st3

/-- Model of `handleFandomFilter(e)` (script.js lines 217-232), keyed by the
clicked control's `data-fandom` attribute; the `classList` updates are
purely visual. -/
def handleFandomFilter (dom : Dom) (st : AppState) (fandomId : String) :
    Except AppState AppState :=
  if fandomId == "all" then showFeaturedView dom st
  else showFandomDetail dom st fandomId

/-- One rendered fandom filter button (script.js lines 132-145). -/
structure FandomControl where
  fandomId : String
  label : String
  active : Bool
deriving DecidableEq

/-- Model of `renderFandomFilters()` (script.js lines 125-155): guarded early
return on a missing container or null data; otherwise the synthetic
active "all" button followed by one button per fandom. -/
def renderFandomFilters (dom : Dom) (st : AppState) : List FandomControl :=
  if !dom.fandomFilters then []
  else
    match st.galleryData with
    | none => []
    | some data =>
      { fandomId := "all", label := "Más populares", active := true }
        :: data.fandoms.map (fun f => { fandomId := f.id, label := f.name, active := false })

/-- One rendered featured tile (script.js lines 177-193). -/
structure FeaturedTile where
  fandomId : String
  thumbnail : String
  name : String
deriving DecidableEq

/-- Model of `fandom.thumbnail || "img/placeholder.jpg"` (script.js line 175). -/
def thumbnailOf (f : Fandom) : String :=
  if f.thumbnail = "" then "img/placeholder.jpg" else f.thumbnail

/-- Model of `renderFeaturedProducts()` (script.js lines 165-206): guarded early
return, then one tile per fandom of `fandoms.slice(0, 6)`. -/
def renderFeaturedProducts (dom : Dom) (st : AppState) : List FeaturedTile :=
  if !dom.featuredGrid then []
  else
    match st.galleryData with
    | none => []
    | some data =>
      (data.fandoms.take 6).map
        (fun f => { fandomId := f.id, thumbnail := thumbnailOf f, name := f.name })

/-- Model of `initializeGallery()` (script.js lines 112-115): renders fandom
filters then featured tiles; neither call mutates the state or throws
(both guard every element access). -/
def initializeGallery (dom : Dom) (st : AppState) :
    AppState × List FandomControl × List FeaturedTile :=
  (st, renderFandomFilters dom st, renderFeaturedProducts dom st)

/-- The sample fandom of the fallback dataset (script.js lines 87-98). -/
def isaacFandom : Fandom :=
  { id := "isaac"
  , name := "The Binding of Isaac"
  , featured := true
  , thumbnail := "img/isaac.jpg"
  , products :=
      [("llaveros",
        [ { id := "isaac-1", image := "img/isaac.jpg", name := "Isaac Design 1" }
        , { id := "isaac-2", image := "img/isaac.jpg", name := "Isaac Design 2" } ])] }

/-- Model of `getFallbackData()` (script.js lines 84-102). -/
def getFallbackData : Catalog :=
  { fandoms := [isaacFandom]
  , productTypes := [{ id := "llaveros", name := "Llaveros", icon := "" }] }

/-- The possible outcomes of `fetch("gallery-data.json")` followed by
`response.json()` (script.js lines 42-50). -/
inductive FetchResult where
  | success (data : Catalog)
  | httpError (status : Nat)
  | networkError
  | parseError
deriving DecidableEq

/-- Whether the fetch pipeline threw, landing in the `catch` block. -/
def isFetchFailure : FetchResult → Bool
  | .success _ => false
  | _ => true

/-- Model of `loadGalleryData()` (script.js lines 39-73): on success store the
parsed catalog, on any failure store `getFallbackData()` (after the
guarded error banner), then run `initializeGallery()`; the `catch`
swallows every failure, so the function always returns normally. -/
def loadGalleryData (dom : Dom) (st : AppState) (fetch : FetchResult) :
    AppState × List FandomControl × List FeaturedTile :=
  match fetch with
  | .success data => initializeGallery dom { st with galleryData := some data }
  | _ => initializeGallery dom { st with galleryData := some getFallbackData }

/-- The state after a failed load: the fallback catalog is installed. -/
def loadedState : AppState :=
  { initialState with galleryData := some getFallbackData }

/-- Thirteen sample products, the item count of the spec scenario. -/
def demoProducts : List Product :=
  (List.range 13).map (fun i => { id := toString i, image := "img/p.jpg", name := toString i })

/-- A fandom holding the thirteen sample products under "llaveros". -/
def demoFandom : Fandom :=
  { id := "demo", name := "Demo", featured := false, thumbnail := ""
  , products := [("llaveros", demoProducts)] }

/-- A catalog with two fandoms, as in the spec scenario. -/
def demoCatalog : Catalog :=
  { fandoms := [isaacFandom, demoFandom]
  , productTypes := [{ id := "llaveros", name := "Llaveros", icon := "" }] }

/-- The detail-view state on the demo fandom at a given page. -/
def demoDetailState (page : Nat) : AppState :=
  { galleryData := some demoCatalog
  , currentFandom := some demoFandom
  , currentProductType := "llaveros"
  , currentPage := page }

theorem totalPagesOf_spec (n : Nat) :
    n ≤ CONFIG.itemsPerPage * totalPagesOf n ∧
    CONFIG.itemsPerPage * totalPagesOf n < n + CONFIG.itemsPerPage := by
  have h := Nat.div_add_mod (n + 5) 6
  have hm : (n + 5) % 6 < 6 := Nat.mod_lt _ (by omega)
  show n ≤ 6 * ((n + 6 - 1) / 6) ∧ 6 * ((n + 6 - 1) / 6) < n + 6
  omega

theorem renderProducts_eq_of_some (dom : Dom) (st : AppState) (fandom : Fandom)
    (hf : st.currentFandom = some fandom)
    (hg : dom.productGrid = true) (hp : dom.prevPage = true) (hn : dom.nextPage = true) :
    renderProducts dom st = .ok (st,
      ((lookupProducts fandom.products st.currentProductType).drop
          ((st.currentPage - 1) * CONFIG.itemsPerPage)).take CONFIG.itemsPerPage) := by
  unfold renderProducts
  rw [hf]
  simp [updatePaginationControls, hg, hp, hn]

theorem renderProducts_ok_of_none (dom : Dom) (st : AppState)
    (hf : st.currentFandom = none) : renderProducts dom st = .ok (st, []) := by
  unfold renderProducts
  rw [hf]

theorem length_page_slice (l : List Product) (m k : Nat) :
    ((l.drop m).take k).length = min k (l.length - m) := by
  simp [List.length_take, List.length_drop]

/-- Claim C1: with `pageSize = 6`, `renderProducts` computes
`totalPages = ceil(n / 6)` (characterised by `n ≤ 6 * totalPages <
n + 6`) and renders the slice `[(k-1)*6, (k-1)*6 + 6)` of the product
list: exactly `min 6 (n - (k-1)*6)` tiles when `1 ≤ k ≤ totalPages`
(the start index then lying inside the list), and 0 tiles when
`k > totalPages`. -/
theorem claim_C1 (dom : Dom) (st : AppState) (fandom : Fandom) (k n : Nat)
    (hg : dom.productGrid = true) (hp : dom.prevPage = true) (hn : dom.nextPage = true)
    (hf : st.currentFandom = some fandom)
    (hlen : (lookupProducts fandom.products st.currentProductType).length = n)
    (hk : st.currentPage = k) :
    (n ≤ CONFIG.itemsPerPage * totalPagesOf n ∧
      CONFIG.itemsPerPage * totalPagesOf n < n + CONFIG.itemsPerPage) ∧
    ∃ tiles, renderProducts dom st = .ok (st, tiles) ∧
      (1 ≤ k → k ≤ totalPagesOf n →
        (k - 1) * CONFIG.itemsPerPage < n ∧
        tiles.length = min CONFIG.itemsPerPage (n - (k - 1) * CONFIG.itemsPerPage)) ∧
      (totalPagesOf n < k → tiles.length = 0) := by
  have hspec := totalPagesOf_spec n
  refine ⟨hspec, _, renderProducts_eq_of_some dom st fandom hf hg hp hn, ?_, ?_⟩
  · intro h1 h2
    have hlt : (k - 1) * CONFIG.itemsPerPage < n := by
      have h6 : CONFIG.itemsPerPage = 6 := rfl
      rw [h6] at hspec ⊢
      have : (k - 1) * 6 + 6 ≤ totalPagesOf n * 6 := by
        have : k - 1 + 1 ≤ totalPagesOf n := by omega
        omega
      omega
    refine ⟨hlt, ?_⟩
    rw [length_page_slice, hlen, hk]
  · intro hgt
    rw [length_page_slice, hlen, hk]
    have h6 : CONFIG.itemsPerPage = 6 := rfl
    rw [h6] at hspec ⊢
    have : totalPagesOf n * 6 ≤ (k - 1) * 6 := by
      have : totalPagesOf n ≤ k - 1 := by omega
      omega
    omega

/-- Witness for C1: the 13-product scenario on page 3 renders 1 tile. -/
theorem claim_C1_witness :
    ∃ tiles, renderProducts fullDom (demoDetailState 3) = .ok (demoDetailState 3, tiles) ∧
      tiles.length = 1 := by
  obtain ⟨-, tiles, heq, hin, -⟩ :=
    claim_C1 fullDom (demoDetailState 3) demoFandom 3 13 rfl rfl rfl rfl (by decide) rfl
  refine ⟨tiles, heq, ?_⟩
  rw [(hin (by decide) (by decide)).2]
  decide

/-- Claim C6: after a paginator update that completes (both buttons
present), the previous control is disabled exactly when
`currentPage == 1` and the next control exactly when
`currentPage == totalPages` or `totalPages == 0`. -/
theorem claim_C6 (dom : Dom) (st : AppState) (totalItems totalPages : Nat)
    (hp : dom.prevPage = true) (hn : dom.nextPage = true) :
    ∃ pc, updatePaginationControls dom st totalItems totalPages = .ok pc ∧
      (pc.prevDisabled = true ↔ st.currentPage = 1) ∧
      (pc.nextDisabled = true ↔ (st.currentPage = totalPages ∨ totalPages = 0)) := by
  refine ⟨⟨st.currentPage == 1, (st.currentPage == totalPages) || (totalPages == 0)⟩, ?_, ?_, ?_⟩
  · unfold updatePaginationControls
    rw [hp, hn]
    rfl
  · simp
  · simp

/-- Witness for C6: page 3 of 3 pages disables next and not previous. -/
theorem claim_C6_witness :
    ∃ pc, updatePaginationControls fullDom (demoDetailState 3) 13 3 = .ok pc ∧
      (pc.prevDisabled = true ↔ (demoDetailState 3).currentPage = 1) ∧
      (pc.nextDisabled = true ↔ ((demoDetailState 3).currentPage = 3 ∨ 3 = 0)) :=
  claim_C6 fullDom (demoDetailState 3) 13 3 rfl rfl

/-- Claim C7: the prev/next click handlers only move `currentPage` one
step while keeping it within `[1, totalPages]`; prev on page 1, next on
the last page, and next when `totalPages = 0` leave the state unchanged,
and neither handler touches the other state fields. -/
theorem claim_C7 (totalPages : Nat) (st : AppState) :
    ((prevClickHandler st).currentFandom = st.currentFandom ∧
      (prevClickHandler st).currentProductType = st.currentProductType ∧
      (nextClickHandler totalPages st).currentFandom = st.currentFandom ∧
      (nextClickHandler totalPages st).currentProductType = st.currentProductType) ∧
    (1 < st.currentPage → (prevClickHandler st).currentPage = st.currentPage - 1) ∧
    (st.currentPage < totalPages →
      (nextClickHandler totalPages st).currentPage = st.currentPage + 1) ∧
    (1 ≤ st.currentPage → st.currentPage ≤ totalPages →
      1 ≤ (prevClickHandler st).currentPage ∧ (prevClickHandler st).currentPage ≤ totalPages ∧
      1 ≤ (nextClickHandler totalPages st).currentPage ∧
      (nextClickHandler totalPages st).currentPage ≤ totalPages) ∧
    (st.currentPage = 1 → prevClickHandler st = st) ∧
    (st.currentPage = totalPages → nextClickHandler totalPages st = st) ∧
    (totalPages = 0 → nextClickHandler totalPages st = st) := by
  unfold prevClickHandler nextClickHandler
  refine ⟨⟨?_, ?_, ?_, ?_⟩, ?_, ?_, ?_, ?_, ?_, ?_⟩
  · split <;> rfl
  · split <;> rfl
  · split <;> rfl
  · split <;> rfl
  · intro h
    rw [if_pos h]
  · intro h
    rw [if_pos h]
  · intro h1 h2
    refine ⟨?_, ?_, ?_, ?_⟩ <;> split <;> (try dsimp only) <;> omega
  · intro h
    rw [if_neg (by omega)]
  · intro h
    rw [if_neg (by omega)]
  · intro h
    rw [if_neg (by omega)]

/-- Witness for C7: at the boundaries of a 3-page list the handlers are
no-ops. -/
theorem claim_C7_witness :
    nextClickHandler 3 (demoDetailState 3) = demoDetailState 3 ∧
    prevClickHandler (demoDetailState 1) = demoDetailState 1 :=
  ⟨(claim_C7 3 (demoDetailState 3)).2.2.2.2.2.1 rfl,
    (claim_C7 3 (demoDetailState 1)).2.2.2.2.1 rfl⟩

/-- Claim C8: `renderProducts` is total over its inputs — a null
`currentFandom` is a complete no-op (state unchanged, no tiles, no
error); a `currentProductType` key absent from `currentFandom.products`
yields the empty product list (`totalPages = 0`, zero tiles) rather
than an error; and a page past the last one yields an empty page rather
than an error. -/
theorem claim_C8 (dom : Dom) (st : AppState) :
    (st.currentFandom = none → renderProducts dom st = .ok (st, [])) ∧
    (∀ fandom, st.currentFandom = some fandom →
      fandom.products.find? (fun p => p.1 == st.currentProductType) = none →
      lookupProducts fandom.products st.currentProductType = [] ∧
      totalPagesOf (lookupProducts fandom.products st.currentProductType).length = 0 ∧
      (dom.productGrid = true → dom.prevPage = true → dom.nextPage = true →
        renderProducts dom st = .ok (st, []))) ∧
    (∀ fandom, st.currentFandom = some fandom →
      dom.productGrid = true → dom.prevPage = true → dom.nextPage = true →
      totalPagesOf (lookupProducts fandom.products st.currentProductType).length
          < st.currentPage →
      renderProducts dom st = .ok (st, [])) := by
  refine ⟨renderProducts_ok_of_none dom st, ?_, ?_⟩
  · intro fandom hf hfind
    have hempty : lookupProducts fandom.products st.currentProductType = [] := by
      unfold lookupProducts
      rw [hfind]
    refine ⟨hempty, by rw [hempty]; rfl, ?_⟩
    intro hg hp hn
    rw [renderProducts_eq_of_some dom st fandom hf hg hp hn, hempty]
    simp
  · intro fandom hf hg hp hn hgt
    rw [renderProducts_eq_of_some dom st fandom hf hg hp hn]
    set products := lookupProducts fandom.products st.currentProductType with hprod
    have hspec := totalPagesOf_spec products.length
    have h6 : CONFIG.itemsPerPage = 6 := rfl
    have hle : products.length ≤ (st.currentPage - 1) * CONFIG.itemsPerPage := by
      rw [h6] at hspec ⊢
      have : totalPagesOf products.length ≤ st.currentPage - 1 := by omega
      have : totalPagesOf products.length * 6 ≤ (st.currentPage - 1) * 6 :=
        Nat.mul_le_mul_right 6 this
      omega
    rw [List.drop_eq_nil_of_le hle]
    rfl

/-- Witness for C8: an unknown product type on the demo fandom renders
zero tiles with `totalPages = 0` and no error. -/
theorem claim_C8_witness :
    renderProducts fullDom { demoDetailState 1 with currentProductType := "posters" } =
      .ok ({ demoDetailState 1 with currentProductType := "posters" }, []) := by
  have h := (claim_C8 fullDom { demoDetailState 1 with currentProductType := "posters" }).2.1
    demoFandom rfl (by decide)
  exact h.2.2 rfl rfl rfl

theorem renderProducts_state (dom : Dom) (st : AppState) :
    (∃ tiles, renderProducts dom st = .ok (st, tiles)) ∨
      renderProducts dom st = .error st := by
  cases hf : st.currentFandom with
  | none => exact .inl ⟨[], renderProducts_ok_of_none dom st hf⟩
  | some fandom =>
    cases hg : dom.productGrid with
    | false =>
      refine .inl ⟨[], ?_⟩
      unfold renderProducts
      rw [hf]
      simp [hg]
    | true =>
      cases hp : dom.prevPage with
      | false =>
        refine .inr ?_
        unfold renderProducts updatePaginationControls
        rw [hf]
        simp [hg, hp]
      | true =>
        cases hn : dom.nextPage with
        | false =>
          refine .inr ?_
          unfold renderProducts updatePaginationControls
          rw [hf]
          simp [hg, hp, hn]
        | true =>
          exact .inl ⟨_, renderProducts_eq_of_some dom st fandom hf hg hp hn⟩

/-- Counterexample to C2: with a missing `nextPage` button the paginator
update throws instead of early-returning, and with a missing
`featuredView` container `showFandomDetail` both mutates the state and
throws. -/
theorem claim_C2_counterexample :
    updatePaginationControls { fullDom with nextPage := false } loadedState 13 3 =
      .error loadedState ∧
    showFandomDetail { fullDom with featuredView := false } loadedState "isaac" =
      .error { loadedState with currentFandom := some isaacFandom, currentPage := 1 } ∧
    ({ loadedState with currentFandom := some isaacFandom, currentPage := 1 } : AppState) ≠
      loadedState := by
  refine ⟨rfl, rfl, by decide⟩

/-- Claim C2 amended: the render operations that guard their containers
(`renderFandomFilters`, `renderFeaturedProducts`,
`renderProductTypeFilters`, and the grid check of `renderProducts`)
early-return as no-ops when the element is missing, but a missing
pagination button makes `updatePaginationControls` throw, a missing view
container makes `showFeaturedView` throw, and `showFandomDetail` throws
after having already mutated `currentFandom` and `currentPage`. -/
theorem claim_C2_amended (dom : Dom) (st : AppState) (totalItems totalPages : Nat) :
    (dom.fandomFilters = false → renderFandomFilters dom st = []) ∧
    (dom.featuredGrid = false → renderFeaturedProducts dom st = []) ∧
    (∀ data fandom, dom.productTypeFilters = false →
      renderProductTypeFilters dom data fandom = []) ∧
    (dom.productGrid = false → renderProducts dom st = .ok (st, [])) ∧
    ((dom.prevPage = false ∨ dom.nextPage = false) →
      updatePaginationControls dom st totalItems totalPages = .error st) ∧
    (dom.featuredView = false → showFeaturedView dom st = .error st) ∧
    (dom.featuredView = true → dom.fandomView = false →
      showFeaturedView dom st = .error st) ∧
    (∀ data fandom fid, st.galleryData = some data →
      data.fandoms.find? (fun f => f.id == fid) = some fandom →
      dom.featuredView = false →
      showFandomDetail dom st fid =
        .error { st with currentFandom := some fandom, currentPage := 1 }) := by
  refine ⟨?_, ?_, ?_, ?_, ?_, ?_, ?_, ?_⟩
  · intro h
    simp [renderFandomFilters, h]
  · intro h
    simp [renderFeaturedProducts, h]
  · intro data fandom h
    simp [renderProductTypeFilters, h]
  · intro h
    unfold renderProducts
    cases st.currentFandom with
    | none => rfl
    | some fandom => simp [h]
  · intro h
    unfold updatePaginationControls
    rcases h with h | h <;> simp [h]
  · intro h
    simp [showFeaturedView, h]
  · intro h1 h2
    simp [showFeaturedView, h1, h2]
  · intro data fandom fid hdata hfind hfv
    unfold showFandomDetail
    rw [hdata]
    simp [hfind, hfv]

/-- Witness for the amended C2: a concrete missing button throws and a
concrete missing grid container is a no-op. -/
theorem claim_C2_amended_witness :
    updatePaginationControls { fullDom with nextPage := false } initialState 0 0 =
      .error initialState ∧
    renderProducts { fullDom with productGrid := false } loadedState =
      .ok (loadedState, []) :=
  ⟨(claim_C2_amended { fullDom with nextPage := false } initialState 0 0).2.2.2.2.1
      (Or.inr rfl),
    (claim_C2_amended { fullDom with productGrid := false } loadedState 0 0).2.2.2.1 rfl⟩

/-- Counterexample to C3: from the detail view on page 3, returning to
the featured view clears `currentFandom` to null but leaves
`currentPage` at 3 instead of resetting it to 1. -/
theorem claim_C3_counterexample :
    showFeaturedView fullDom
        { loadedState with currentFandom := some isaacFandom, currentPage := 3 } =
      .ok { loadedState with currentFandom := none, currentPage := 3 } ∧
    (stateAfter (showFeaturedView fullDom
        { loadedState with currentFandom := some isaacFandom, currentPage := 3 })).currentPage
      ≠ 1 := by
  exact ⟨rfl, by decide⟩

/-- Claim C3 amended: selecting a fandom (`showFandomDetail` with a
resolvable id) and selecting a product type always reset `currentPage`
to 1, but returning to the featured view (`showFeaturedView`) only
clears `currentFandom` to null and leaves `currentPage` unchanged. -/
theorem claim_C3_amended (dom : Dom) (st : AppState) :
    (∀ data fandom fid, st.galleryData = some data →
      data.fandoms.find? (fun f => f.id == fid) = some fandom →
      (stateAfter (showFandomDetail dom st fid)).currentPage = 1 ∧
      (stateAfter (showFandomDetail dom st fid)).currentFandom = some fandom) ∧
    (∀ typeId,
      (stateAfter (productTypeClick dom st typeId)).currentPage = 1 ∧
      (stateAfter (productTypeClick dom st typeId)).currentProductType = typeId) ∧
    ((stateAfter (showFeaturedView dom st)).currentPage = st.currentPage ∧
      (dom.featuredView = true → dom.fandomView = true →
        showFeaturedView dom st = .ok { st with currentFandom := none })) := by
  refine ⟨?_, ?_, ?_, ?_⟩
  · intro data fandom fid hdata hfind
    unfold showFandomDetail
    rw [hdata]
    simp only [hfind]
    split
    · exact ⟨rfl, rfl⟩
    split
    · exact ⟨rfl, rfl⟩
    split
    · exact ⟨rfl, rfl⟩
    split
    · rename_i heq
      rcases renderProducts_state dom { galleryData := some data, currentFandom := some fandom, currentProductType := firstProductTypeKey fandom, currentPage := 1 } with ⟨tiles, h2⟩ | h2 <;> rw [h2] at heq
      · exact Except.noConfusion heq
      · injection heq with h3
        subst h3
        exact ⟨rfl, rfl⟩
    · rename_i heq
      rcases renderProducts_state dom { galleryData := some data, currentFandom := some fandom, currentProductType := firstProductTypeKey fandom, currentPage := 1 } with ⟨tiles, h2⟩ | h2 <;> rw [h2] at heq
      · injection heq with h3
        injection h3 with h4 h5
        subst h4
        cases hgal : dom.galeria <;> simp [hgal, stateAfter]
      · exact Except.noConfusion heq
  · intro typeId
    unfold productTypeClick
    rcases renderProducts_state dom { st with currentProductType := typeId, currentPage := 1 } with ⟨tiles, hrp⟩ | hrp <;>
      simp [hrp, stateAfter]
  · unfold showFeaturedView
    split
    · rfl
    · split <;> rfl
  · intro h1 h2
    simp [showFeaturedView, h1, h2]

/-- Witness for the amended C3: selecting "isaac" from the freshly
loaded fallback state lands on page 1 of that fandom. -/
theorem claim_C3_amended_witness :
    (stateAfter (showFandomDetail fullDom loadedState "isaac")).currentPage = 1 ∧
    (stateAfter (showFandomDetail fullDom loadedState "isaac")).currentFandom =
      some isaacFandom :=
  (claim_C3_amended fullDom loadedState).1 getFallbackData isaacFandom "isaac" rfl rfl

theorem buildTypeControls_inactive (data : Catalog) (ps : List (String × List Product)) :
    ∀ i : Nat, 1 ≤ i → ∀ c ∈ buildTypeControls data i ps, c.active = false := by
  induction ps with
  | nil =>
    intro i hi c hc
    simp [buildTypeControls] at hc
  | cons p rest ih =>
    obtain ⟨key, prods⟩ := p
    intro i hi c hc
    unfold buildTypeControls at hc
    split at hc
    · exact ih (i + 1) (by omega) c hc
    · rcases List.mem_cons.mp hc with rfl | hc2
      · have : (i == 0) = false := by
          simp only [beq_eq_false_iff_ne]
          omega
        simpa using this
      · exact ih (i + 1) (by omega) c hc2

theorem buildTypeControls_typeIds (data : Catalog) (ps : List (String × List Product)) :
    ∀ i : Nat,
      (buildTypeControls data i ps).map (fun c => c.typeId) =
        (ps.filter
            (fun p => (data.productTypes.find? (fun pt => pt.id == p.1)).isSome)).map
          (fun p => p.1) := by
  induction ps with
  | nil =>
    intro i
    simp [buildTypeControls]
  | cons p rest ih =>
    obtain ⟨key, prods⟩ := p
    intro i
    unfold buildTypeControls
    cases hfind : data.productTypes.find? (fun pt => pt.id == key) with
    | none =>
      rw [List.filter_cons]
      simp only [hfind, Option.isSome_none, if_neg]
      exact ih (i + 1)
    | some pt =>
      have hid : pt.id = key := by
        have := List.find?_some hfind
        simpa using this
      rw [List.filter_cons]
      simp only [hfind, Option.isSome_some, if_pos]
      simp only [List.map_cons]
      rw [ih (i + 1)]
      simp [hid]

/-- Counterexample to C4: when the first key of `Fandom.products` does
not resolve to a known ProductType, exactly one control is emitted for
the resolvable second key, but it is not marked active — no control is. -/
theorem claim_C4_counterexample :
    (renderProductTypeFilters fullDom getFallbackData
        { demoFandom with products := [("posters", []), ("llaveros", demoProducts)] }).map
      (fun c => (c.typeId, c.active)) = [("llaveros", false)] := by
  rfl

/-- Claim C4 amended: the rebuild emits one control per key of
`Fandom.products` that resolves to a known ProductType, in key order,
skipping unresolvable keys without error; a control is marked active iff
it comes from index 0 of the unfiltered key list, so the first emitted
control is active exactly when the first key resolves, and when the
first key is unresolvable no emitted control is active. -/
theorem claim_C4_amended (dom : Dom) (data : Catalog) (fandom : Fandom)
    (hdom : dom.productTypeFilters = true) :
    ((renderProductTypeFilters dom data fandom).map (fun c => c.typeId) =
      (fandom.products.filter
          (fun p => (data.productTypes.find? (fun pt => pt.id == p.1)).isSome)).map
        (fun p => p.1)) ∧
    (∀ key prods rest, fandom.products = (key, prods) :: rest →
      (data.productTypes.find? (fun pt => pt.id == key) = none →
        ∀ c ∈ renderProductTypeFilters dom data fandom, c.active = false) ∧
      (∀ pt, data.productTypes.find? (fun pt2 => pt2.id == key) = some pt →
        ∃ cs, renderProductTypeFilters dom data fandom =
            { typeId := pt.id, typeName := pt.name, icon := pt.icon
            , count := prods.length, active := true } :: cs ∧
          ∀ c ∈ cs, c.active = false)) := by
  have hrend : renderProductTypeFilters dom data fandom =
      buildTypeControls data 0 fandom.products := by
    simp [renderProductTypeFilters, hdom]
  refine ⟨?_, ?_⟩
  · rw [hrend]
    exact buildTypeControls_typeIds data fandom.products 0
  · intro key prods rest hps
    refine ⟨?_, ?_⟩
    · intro hnone c hc
      rw [hrend, hps] at hc
      unfold buildTypeControls at hc
      rw [hnone] at hc
      exact buildTypeControls_inactive data rest 1 (by omega) c hc
    · intro pt hsome
      refine ⟨buildTypeControls data 1 rest, ?_, ?_⟩
      · rw [hrend, hps]
        conv_lhs => rw [buildTypeControls]
        rw [hsome]
        rfl
      · exact buildTypeControls_inactive data rest 1 (by omega)

/-- Witness for the amended C4: on the fallback fandom the single
resolvable key "llaveros" yields one active control. -/
theorem claim_C4_amended_witness :
    ∃ cs, renderProductTypeFilters fullDom getFallbackData isaacFandom =
        { typeId := "llaveros", typeName := "Llaveros", icon := ""
        , count := 2, active := true } :: cs ∧
      ∀ c ∈ cs, c.active = false := by
  have h := ((claim_C4_amended fullDom getFallbackData isaacFandom rfl).2
      "llaveros" (isaacFandom.products.head (by decide)).2
      [] (by rfl)).2
    { id := "llaveros", name := "Llaveros", icon := "" } (by rfl)
  simpa using h

/-- Claim C5: on any fetch failure the loader installs the hard-coded
fallback catalog (one fandom, one product type) and still completes
initialization, producing the fandom filter controls and featured tiles;
no load outcome leaves the catalog absent, and the whole pipeline
returns normally (it is a total function of the fetch outcome). -/
theorem claim_C5 (dom : Dom) (st : AppState) (fetch : FetchResult)
    (hfail : isFetchFailure fetch = true) :
    (loadGalleryData dom st fetch).1.galleryData = some getFallbackData ∧
    getFallbackData.fandoms.length = 1 ∧
    getFallbackData.productTypes.length = 1 ∧
    (∀ outcome, (loadGalleryData dom st outcome).1.galleryData ≠ none) ∧
    (dom.fandomFilters = true →
      (loadGalleryData dom st fetch).2.1 =
        { fandomId := "all", label := "Más populares", active := true }
          :: getFallbackData.fandoms.map
              (fun f => { fandomId := f.id, label := f.name, active := false })) ∧
    (dom.featuredGrid = true →
      (loadGalleryData dom st fetch).2.2.length = getFallbackData.fandoms.length) := by
  have hout : ∀ outcome, (loadGalleryData dom st outcome).1.galleryData ≠ none := by
    intro outcome
    cases outcome <;> simp [loadGalleryData, initializeGallery]
  cases fetch with
  | success d => simp [isFetchFailure] at hfail
  | httpError status =>
    refine ⟨rfl, rfl, rfl, hout, ?_, ?_⟩
    · intro h
      simp [loadGalleryData, initializeGallery, renderFandomFilters, h]
    · intro h
      simp [loadGalleryData, initializeGallery, renderFeaturedProducts, h, getFallbackData]
  | networkError =>
    refine ⟨rfl, rfl, rfl, hout, ?_, ?_⟩
    · intro h
      simp [loadGalleryData, initializeGallery, renderFandomFilters, h]
    · intro h
      simp [loadGalleryData, initializeGallery, renderFeaturedProducts, h, getFallbackData]
  | parseError =>
    refine ⟨rfl, rfl, rfl, hout, ?_, ?_⟩
    · intro h
      simp [loadGalleryData, initializeGallery, renderFandomFilters, h]
    · intro h
      simp [loadGalleryData, initializeGallery, renderFeaturedProducts, h, getFallbackData]

/-- Witness for C5: a concrete network error on a full page yields the
fallback catalog with exactly one fandom and one product type. -/
theorem claim_C5_witness :
    (loadGalleryData fullDom initialState FetchResult.networkError).1.galleryData =
      some getFallbackData ∧
    getFallbackData.fandoms.length = 1 ∧
    getFallbackData.productTypes.length = 1 := by
  have h := claim_C5 fullDom initialState FetchResult.networkError rfl
  exact ⟨h.1, h.2.1, h.2.2.1⟩

/-- Claim C9: clicking the "all" fandom control returns to the featured
view with `currentFandom` cleared to null, and clicking a fandom control
whose id resolves in the catalog enters the detail view with
`currentFandom` set to that fandom (this also covers switching directly
between two detail views). -/
theorem claim_C9 (dom : Dom) (st : AppState) (data : Catalog) (fandom : Fandom)
    (fid : String)
    (hfv : dom.featuredView = true) (hdv : dom.fandomView = true) :
    (handleFandomFilter dom st "all" = .ok { st with currentFandom := none }) ∧
    (fid ≠ "all" → st.galleryData = some data →
      data.fandoms.find? (fun f => f.id == fid) = some fandom →
      dom.selectedFandomName = true → dom.galeria = true →
      dom.productGrid = true → dom.prevPage = true → dom.nextPage = true →
      ∃ st2, handleFandomFilter dom st fid = .ok st2 ∧
        st2.currentFandom = some fandom ∧ st2.currentPage = 1) := by
  refine ⟨?_, ?_⟩
  · simp [handleFandomFilter, showFeaturedView, hfv, hdv]
  · intro hne hdata hfind hsn hgal hg hp hn
    have hne2 : (fid == "all") = false := by
      simp [hne]
    refine ⟨{ st with currentFandom := some fandom, currentPage := 1, currentProductType := firstProductTypeKey fandom }, ?_, rfl, rfl⟩
    unfold handleFandomFilter
    rw [hne2]
    simp only [Bool.false_eq_true, if_false]
    unfold showFandomDetail
    rw [hdata]
    simp only [hfind]
    rw [renderProducts_eq_of_some dom { galleryData := some data, currentFandom := some fandom, currentProductType := firstProductTypeKey fandom, currentPage := 1 } fandom rfl hg hp hn]
    simp [hfv, hdv, hsn, hgal]

/-- Witness for C9: from the loaded fallback state, selecting "isaac"
enters its detail view on page 1, and clicking "all" from there returns
to the featured view with a null `currentFandom`. -/
theorem claim_C9_witness :
    ∃ st2, handleFandomFilter fullDom loadedState "isaac" = .ok st2 ∧
      st2.currentFandom = some isaacFandom ∧ st2.currentPage = 1 ∧
      handleFandomFilter fullDom st2 "all" = .ok { st2 with currentFandom := none } := by
  obtain ⟨st2, h1, h2, h3⟩ :=
    (claim_C9 fullDom loadedState getFallbackData isaacFandom "isaac" rfl rfl).2
      (by decide) rfl rfl rfl rfl rfl rfl rfl
  exact ⟨st2, h1, h2, h3,
    (claim_C9 fullDom st2 getFallbackData isaacFandom "x" rfl rfl).1⟩

/-- Claim C10: the featured view renders exactly the first
`min 6 fandoms.length` fandoms of the catalog, one tile each and in
catalog order, and (given the spec invariant that fandom ids are
unique) the id of any fandom past the sixth position never appears
among the rendered tiles. -/
theorem claim_C10 (dom : Dom) (st : AppState) (data : Catalog)
    (hdom : dom.featuredGrid = true) (hdata : st.galleryData = some data) :
    (renderFeaturedProducts dom st).length = min 6 data.fandoms.length ∧
    ((renderFeaturedProducts dom st).map (fun t => t.fandomId) =
        (data.fandoms.take 6).map (fun f => f.id) ∧
      (renderFeaturedProducts dom st).map (fun t => t.name) =
        (data.fandoms.take 6).map (fun f => f.name)) ∧
    ((data.fandoms.map (fun f => f.id)).Nodup →
      ∀ j (hj : j < data.fandoms.length), 6 ≤ j →
        (data.fandoms.get ⟨j, hj⟩).id ∉
          (renderFeaturedProducts dom st).map (fun t => t.fandomId)) := by
  have hrend : renderFeaturedProducts dom st =
      (data.fandoms.take 6).map
        (fun f => { fandomId := f.id, thumbnail := thumbnailOf f, name := f.name }) := by
    simp [renderFeaturedProducts, hdom, hdata]
  have hids : (renderFeaturedProducts dom st).map (fun t => t.fandomId) =
      (data.fandoms.take 6).map (fun f => f.id) := by
    rw [hrend, List.map_map]
    rfl
  refine ⟨?_, ⟨hids, ?_⟩, ?_⟩
  · rw [hrend]
    simp
  · rw [hrend, List.map_map]
    rfl
  · intro hnd j hj h6 hmem
    rw [hids, List.map_take] at hmem
    obtain ⟨i, hi, hgi⟩ := List.mem_iff_getElem.mp hmem
    have hlen : ((data.fandoms.map (fun f => f.id)).take 6).length =
        min 6 (data.fandoms.map (fun f => f.id)).length := List.length_take ..
    have hi6 : i < 6 := by
      rw [hlen] at hi
      omega
    have hiL : i < (data.fandoms.map (fun f => f.id)).length := by
      rw [hlen] at hi
      omega
    have hjL : j < (data.fandoms.map (fun f => f.id)).length := by
      simpa using hj
    have hx : (data.fandoms.map (fun f => f.id)).get ⟨i, hiL⟩ =
        (data.fandoms.map (fun f => f.id)).get ⟨j, hjL⟩ := by
      simp only [List.get_eq_getElem]
      rw [← List.getElem_take (data.fandoms.map (fun f => f.id)) (h := hi)]
      rw [hgi]
      simp [List.getElem_map, List.get_eq_getElem]
    have hij : i = j := by
      have h2 := (List.Nodup.get_inj_iff hnd).mp hx
      simpa using h2
    omega

/-- Witness for C10: the two-fandom demo catalog renders both fandoms,
in order, on the featured grid. -/
theorem claim_C10_witness :
    (renderFeaturedProducts fullDom { loadedState with galleryData := some demoCatalog }).length =
      min 6 demoCatalog.fandoms.length ∧
    (renderFeaturedProducts fullDom
        { loadedState with galleryData := some demoCatalog }).map (fun t => t.fandomId) =
      (demoCatalog.fandoms.take 6).map (fun f => f.id) := by
  have h := claim_C10 fullDom { loadedState with galleryData := some demoCatalog }
    demoCatalog rfl rfl
  exact ⟨h.1, h.2.1.1⟩
